import Mathlib

/-!
Verification development for the OpenVietnameseImageCaptioning repository.

The definitions below are a shallow embedding of the repository's Python
sources into Lean: tensors over the model dimension become lists of rational
vectors, the per-epoch training loop becomes an explicit step function on a
state record, dictionaries persisted by `torch.save` become lists of their
string keys, and fallible code (Python `assert` statements, `masked_fill`
called with a `None` mask) becomes `Except String` values.  Real-valued
constants that the Python code obtains from transcendental functions
(`np.sqrt`, `exp` inside softmax, `torch.sigmoid`) are carried as explicit
parameters of the embedding, so every definition stays executable over `ℚ`.
-/

namespace Config

/-- Training configuration from `config.py`. -/
def batch_size : ℕ := 16

/-- Beam configuration from `config.py`. -/
def beam_size : ℕ := 5

/-- Memory slots from `config.py` (`total_memory`). -/
def total_memory : ℕ := 40

end Config

/-! ## Trainer state machine (`utils/trainer.py`, `Trainer.train`)

The body of the `while True:` loop in `Trainer.train` evaluates the
validation CIDEr once per epoch and updates `use_rl`, `best_val_cider`,
`best_test_cider` and `patience`.  `trainEpochStep` is the exact transcription
of that body (trainer.py lines 274-315).  Crucially, in the Python code the
initialisation of these four variables (lines 250-260) sits *inside* the
`while True:` loop, so `trainLoopNoResume` re-initialises the state on every
iteration, exactly as the code does when `checkpoint_filename is None`.
`specStateMachineRun` is the state machine as the specification describes it
(state threaded from one epoch to the next). -/

namespace Trainer

/-- The mutable per-epoch training state of `Trainer.train`:
`use_rl`, `best_val_cider`, `best_test_cider`, `patience`. -/
structure LoopState where
  use_rl : Bool
  best_val_cider : ℚ
  best_test_cider : ℚ
  patience : ℕ
deriving DecidableEq

/-- Observable events of one iteration of the `while True:` loop body:
whether the epoch was marked best, whether the XE-to-RL switch fired
(with its optimizer re-initialisation), whether training exited, whether the
best checkpoint was reloaded, and the `patience`/`use_rl` values written into
the last-checkpoint record. -/
structure EpochOutcome where
  best : Bool
  switch_to_rl : Bool
  exit_train : Bool
  reload_best_checkpoint : Bool
  reinit_optimizer : Bool
  saved_patience : ℕ
  saved_use_rl : Bool
deriving DecidableEq

/-- One pass through the epoch body of `Trainer.train`
(trainer.py lines 274-315): compare `val_cider` with `best_val_cider`,
update `patience`, fire the XE-to-RL switch or the exit when `patience == 5`,
and reload the best checkpoint when switching on a non-best epoch. -/
def trainEpochStep (s : LoopState) (val_cider : ℚ) : LoopState × EpochOutcome :=
  let best := decide (val_cider ≥ s.best_val_cider)
  let best_val_cider := if best then val_cider else s.best_val_cider
  let patience := if best then 0 else s.patience + 1
  let switch_to_rl := patience = 5 && !s.use_rl
  let exit_train := patience = 5 && s.use_rl
  let use_rl := s.use_rl || switch_to_rl
  let patience := if switch_to_rl then 0 else patience
  let reload_best := switch_to_rl && !best
  (⟨use_rl, best_val_cider, s.best_test_cider, patience⟩,
   ⟨best, switch_to_rl, exit_train, reload_best, switch_to_rl, patience, use_rl⟩)

/-- Initial loop state when `checkpoint_filename is None`
(trainer.py lines 256-260): `use_rl = False`, `best_val_cider = 0.0`,
`best_test_cider = 0.0`, `patience = 0`. -/
def initLoopState : LoopState := ⟨false, 0, 0, 0⟩

/-- The `while True:` loop of `Trainer.train` run with
`checkpoint_filename = None` on a sequence of validation CIDEr values.
Because the state initialisation (trainer.py lines 250-260) is inside the
loop, every iteration starts again from `initLoopState`; the loop stops only
when the body sets `exit_train`. -/
def trainLoopNoResume : List ℚ → List EpochOutcome
  | [] => []
  | v :: vs =>
    let r := (trainEpochStep initLoopState v).2
    r :: (if r.exit_train then [] else trainLoopNoResume vs)

/-- Modelled from the spec: section 4.6 describes the training orchestrator
as a state machine whose state (`use_rl`, `best_val_cider`, `patience`) is
threaded from one epoch to the next; the per-epoch transition itself is
`trainEpochStep`, the exact transcription of the loop body. -/
def specStateMachineRun (s : LoopState) : List ℚ → List EpochOutcome
  | [] => []
  | v :: vs =>
    let (s2, r) := trainEpochStep s v
    r :: (if r.exit_train then [] else specStateMachineRun s2 vs)

/-- The validation CIDEr sequence named by the claim:
[0.5, 0.4, 0.3, 0.2, 0.1, 0.05]. -/
def ciderSeq : List ℚ :=
  [mkRat 1 2, mkRat 2 5, mkRat 3 10, mkRat 1 5, mkRat 1 10, mkRat 1 20]

/-! ### Checkpoint records (`Trainer.save_checkpoint`, `Trainer.load_checkpoint`, `Trainer.train`) -/

/-- Keys of the dictionary that `Trainer.train` actually persists with
`torch.save(...)` into `last_model.pth` every epoch (trainer.py lines
302-309). -/
def torchSavedKeys : List String :=
  ["val_loss", "val_cider", "patience", "best_val_cider", "best_test_cider",
   "use_rl"]

/-- Keys of the dictionary that `Trainer.save_checkpoint` builds (trainer.py
lines 234-246) before merging in the keys of `dict_for_updating`; the method
never writes this dictionary to disk and is never called. -/
def saveCheckpointBuiltKeys (updating : List String) : List String :=
  ["torch_rng_state", "cuda_rng_state", "numpy_rng_state", "random_rng_state",
   "epoch", "state_dict", "optimizer", "scheduler"] ++ updating

/-- Keys that `Trainer.load_checkpoint` reads from a loaded checkpoint
(trainer.py lines 215-230); loading a record that lacks any of them raises a
`KeyError`. -/
def loadCheckpointAccessedKeys : List String :=
  ["torch_rng_state", "cuda_rng_state", "numpy_rng_state", "random_rng_state",
   "state_dict", "optimizer", "scheduler", "epoch", "val_loss",
   "best_val_cider", "best_test_cider", "use_rl", "patience"]

/-- Keys the claim says the persisted last-checkpoint record contains:
validation loss, validation CIDEr, patience, best validation/test CIDEr, the
RL flag, model parameters, optimizer state, scheduler state and all RNG
states. -/
def claimedLastCheckpointKeys : List String :=
  ["val_loss", "val_cider", "patience", "best_val_cider", "best_test_cider",
   "use_rl", "state_dict", "optimizer", "scheduler", "torch_rng_state",
   "cuda_rng_state", "numpy_rng_state", "random_rng_state"]

/-- Files written at the end of an epoch of `Trainer.train` (lines 302-312):
`last_model.pth` always, and on a best epoch `last_model.pth` is additionally
copied to `best_val_model.pth`. -/
def epochFilesWritten (best : Bool) : List String :=
  ["last_model.pth"] ++ (if best then ["best_val_model.pth"] else [])

/-! ### Self-critical training (`Trainer.train_scst`, trainer.py lines 165-202) -/

/-- Attributes assigned on `self` in `Trainer.init` (trainer.py lines
30-94).  Note the CIDEr scorer is stored as `cider_train`. -/
def initAttributes : List String :=
  ["model", "vocab", "optim", "scheduler", "loss_fn", "epoch",
   "train_dataset", "train_dict_dataset", "val_dataset", "val_dict_dataset",
   "train_dataloader", "val_dataloader", "train_dict_dataloader",
   "val_dict_dataloader", "test_dataset", "test_dict_dataset",
   "test_dataloader", "test_dict_dataloader", "cider_train"]

/-- Local names bound in `Trainer.train_scst` before line 186 executes
(trainer.py lines 167-185), in order of first assignment.  Line 186 then
reads `caps_gt` on its right-hand side before any assignment to it. -/
def scstLocalsBeforeLine186 : List String :=
  ["tokenizer_pool", "running_reward", "running_reward_baseline", "vocab",
   "running_loss", "pbar", "it", "sample", "features", "boxes", "outs",
   "log_probs", "caps_gen"]

/-- Attribute of `self` read at trainer.py line 188 to score the generated
captions. -/
def scstScorerAttribute : String := "train_cider"

/-- Arguments of the `self.model.beam_search` call in `Trainer.train_scst`
(trainer.py lines 180-181): `beam_size=config.batch_size`,
`out_size=config.beam_size`. -/
structure BeamSearchCall where
  beam_size : ℕ
  out_size : ℕ
deriving DecidableEq

/-- The beam-search invocation of `Trainer.train_scst` as written in the
code. -/
def scstBeamSearchCall : BeamSearchCall :=
  ⟨Config.batch_size, Config.beam_size⟩

/-- Mean of a list of rationals (`torch.mean`). -/
def listMean (xs : List ℚ) : ℚ := xs.sum / xs.length

/-- Baseline of the self-critical loss (trainer.py line 190): the mean of
the rewards over the beam of one image. -/
def rewardBaseline (rewards : List ℚ) : ℚ := listMean rewards

/-- Per-sample self-critical loss terms for one image (trainer.py line 191):
minus the mean token log-probability of each sampled sequence times the
reward minus the beam-mean baseline. -/
def scstImageLoss (rewards : List ℚ) (logProbs : List (List ℚ)) : List ℚ :=
  List.zipWith (fun r lp => -(listMean lp) * (r - rewardBaseline rewards))
    rewards logProbs

/-- Batch self-critical loss (trainer.py line 193): the mean of all
per-sample loss terms of the batch. -/
def scstBatchLoss (batch : List (List ℚ × List (List ℚ))) : ℚ :=
  listMean (batch.flatMap (fun p => scstImageLoss p.1 p.2))

end Trainer

/-! ## Tensor primitives for the attention engine (`models/modules/attentions.py`)

Batch dimension elided (one batch element); a sequence of feature vectors is
a `Mat`, a learned linear map is its weight rows plus bias. Multi-head
splitting (`view(b_s, n, h, d_k).permute(...)`) becomes slicing the projected
vector at offsets that are multiples of the head size. -/

abbrev Vec := List ℚ

abbrev Mat := List Vec

/-- Dot product of two vectors. -/
def dotQ (xs ys : Vec) : ℚ := (List.zipWith (fun a b => a * b) xs ys).sum

/-- Learned linear map `nn.Linear`: weight rows and bias. -/
structure LinearLayer where
  weight : List Vec
  bias : Vec

/-- Apply a linear layer to one vector. -/
def LinearLayer.apply (l : LinearLayer) (x : Vec) : Vec :=
  List.zipWith (fun row b => dotQ row x + b) l.weight l.bias

/-- Head slice: the coordinates `[hIdx*dk, (hIdx+1)*dk)` of a projected
vector — the effect of `view(b_s, n, h, d_k).permute(0, 2, 1, 3)` on one
position. -/
def headSlice (dk hIdx : ℕ) (x : Vec) : Vec := (x.drop (hIdx * dk)).take dk

/-- Softmax over one score row in which `none` stands for the `-np.inf`
written by `masked_fill`: a masked entry gets weight exactly 0, the others
`ex s / Σ ex`.  The exponential is the parameter `ex`. -/
def softmaxRow (ex : ℚ → ℚ) (row : List (Option ℚ)) : List ℚ :=
  let den := (row.map (fun o => match o with | none => 0 | some x => ex x)).sum
  row.map (fun o => match o with | none => 0 | some x => ex x / den)

/-- Weighted sum of value rows with `d` output coordinates
(`torch.matmul(att, v)` for one query position). -/
def weightedSumVecs (ws : List ℚ) (vs : List Vec) (d : ℕ) : Vec :=
  (List.range d).map (fun c => (List.zipWith (fun w v => w * v.getD c 0) ws vs).sum)

/-- Learned projections shared by all attention variants
(`fc_q`, `fc_k`, `fc_v`, `fc_o`); `sqrt_dk` carries the numeric value of
`np.sqrt(d_k)`. -/
structure AttentionParams where
  d_k : ℕ
  d_v : ℕ
  h : ℕ
  fc_q : LinearLayer
  fc_k : LinearLayer
  fc_v : LinearLayer
  fc_o : LinearLayer
  sqrt_dk : ℚ

/-- Attention mask argument: per head, query, key; `true` masks. -/
abbrev AttnMask := ℕ → ℕ → ℕ → Bool

/-- Multiplicative attention weights argument: per head, query, key. -/
abbrev AttnWeights := ℕ → ℕ → ℕ → ℚ

namespace ScaledDotProductAttention

/-- Query projection of position `i`, head `hIdx` (attentions.py line 57). -/
def qHead (A : AttentionParams) (queries : Mat) (hIdx i : ℕ) : Vec :=
  headSlice A.d_k hIdx (A.fc_q.apply (queries.getD i []))

/-- Key projection of position `j`, head `hIdx` (attentions.py line 58). -/
def kHead (A : AttentionParams) (keys : Mat) (hIdx j : ℕ) : Vec :=
  headSlice A.d_k hIdx (A.fc_k.apply (keys.getD j []))

/-- Value projection of position `j`, head `hIdx` (attentions.py line 59). -/
def vHead (A : AttentionParams) (values : Mat) (hIdx j : ℕ) : Vec :=
  headSlice A.d_v hIdx (A.fc_v.apply (values.getD j []))

/-- Raw score entry `torch.matmul(q, k) / np.sqrt(d_k)`
(attentions.py line 61). -/
def score (A : AttentionParams) (queries keys : Mat) (hIdx i j : ℕ) : ℚ :=
  dotQ (qHead A queries hIdx i) (kHead A keys hIdx j) / A.sqrt_dk

/-- Score after the optional multiplicative weights
(attentions.py lines 62-63). -/
def weightedScore (A : AttentionParams) (queries keys : Mat)
    (wts : Option AttnWeights) (hIdx i j : ℕ) : ℚ :=
  match wts with
  | none => score A queries keys hIdx i j
  | some w => score A queries keys hIdx i j * w hIdx i j

/-- Score after the optional `-np.inf` mask fill (attentions.py lines 64-65);
`none` is the masked value. -/
def maskedScore (A : AttentionParams) (queries keys : Mat)
    (mask : Option AttnMask) (wts : Option AttnWeights) (hIdx i j : ℕ) :
    Option ℚ :=
  match mask with
  | none => some (weightedScore A queries keys wts hIdx i j)
  | some m =>
    if m hIdx i j then none else some (weightedScore A queries keys wts hIdx i j)

/-- Full masked score row of query `i` over the `nk` key columns. -/
def attRow (A : AttentionParams) (queries keys : Mat) (mask : Option AttnMask)
    (wts : Option AttnWeights) (nk hIdx i : ℕ) : List (Option ℚ) :=
  (List.range nk).map (maskedScore A queries keys mask wts hIdx i)

/-- Per-head context of query `i`: softmax of the row, then the weighted sum
of the value rows (attentions.py lines 66-67). -/
def headContext (A : AttentionParams) (ex : ℚ → ℚ) (queries keys values : Mat)
    (mask : Option AttnMask) (wts : Option AttnWeights) (hIdx i : ℕ) : Vec :=
  weightedSumVecs (softmaxRow ex (attRow A queries keys mask wts keys.length hIdx i))
    ((List.range keys.length).map (vHead A values hIdx)) A.d_v

end ScaledDotProductAttention

/-- Parameters of the memory-augmented variant: the shared projections plus
`m` learned memory rows `m_k`, `m_v` and the numeric values of
`np.sqrt(d_k)` (inherited) and `np.sqrt(m)`. -/
structure MemoryAttentionParams extends AttentionParams where
  m : ℕ
  m_k : List Vec
  m_v : List Vec
  sqrt_m : ℚ

namespace AugmentedMemoryScaledDotProductAttention

/-- Row `j` of the concatenated key matrix
`torch.cat([self.fc_k(keys), np.sqrt(d_k) * m_k], 1)`
(attentions.py lines 222, 226): a projected key for `j < nk`, a scaled
memory slot beyond. -/
def keyRow (A : MemoryAttentionParams) (keys : Mat) (j : ℕ) : Vec :=
  if j < keys.length then A.fc_k.apply (keys.getD j [])
  else (A.m_k.getD (j - keys.length) []).map (fun x => A.sqrt_dk * x)

/-- Row `j` of the concatenated value matrix
`torch.cat([self.fc_v(values), np.sqrt(m) * m_v], 1)`
(attentions.py lines 223, 227). -/
def valueRow (A : MemoryAttentionParams) (values : Mat) (j : ℕ) : Vec :=
  if j < values.length then A.fc_v.apply (values.getD j [])
  else (A.m_v.getD (j - values.length) []).map (fun x => A.sqrt_m * x)

/-- Raw score entry over the `nk + m` columns (attentions.py line 229). -/
def score (A : MemoryAttentionParams) (queries keys : Mat) (hIdx i j : ℕ) : ℚ :=
  dotQ (headSlice A.d_k hIdx (A.fc_q.apply (queries.getD i [])))
    (headSlice A.d_k hIdx (keyRow A keys j)) / A.sqrt_dk

/-- Score after the optional multiplicative weights, which the code applies
only to the first `nk` columns:
`torch.cat([att[:, :, :, :nk] * attention_weights, att[:, :, :, nk:]], -1)`
(attentions.py lines 230-231). -/
def weightedScore (A : MemoryAttentionParams) (queries keys : Mat)
    (wts : Option AttnWeights) (hIdx i j : ℕ) : ℚ :=
  match wts with
  | none => score A queries keys hIdx i j
  | some w =>
    if j < keys.length then score A queries keys hIdx i j * w hIdx i j
    else score A queries keys hIdx i j

/-- Score after the mask fill, which the code applies only to the first `nk`
columns: `att[:, :, :, :nk] = att[:, :, :, :nk].masked_fill(...)`
(attentions.py lines 232-233); memory columns are never masked. -/
def maskedScore (A : MemoryAttentionParams) (queries keys : Mat)
    (mask : Option AttnMask) (wts : Option AttnWeights) (hIdx i j : ℕ) :
    Option ℚ :=
  match mask with
  | none => some (weightedScore A queries keys wts hIdx i j)
  | some m =>
    if j < keys.length && m hIdx i j then none
    else some (weightedScore A queries keys wts hIdx i j)

end AugmentedMemoryScaledDotProductAttention

/-- Parameters of the adaptive (language-gated) variant: the shared
projections plus the language-signal projection `fc_s`. -/
structure AdaptiveAttentionParams extends AttentionParams where
  fc_s : LinearLayer

namespace AdaptiveScaledDotProductAttention

/-- Language-signal projection of position `i`, head `hIdx`
(attentions.py line 298). -/
def sHead (A : AdaptiveAttentionParams) (signals : Mat) (hIdx i : ℕ) : Vec :=
  headSlice A.d_k hIdx (A.fc_s.apply (signals.getD i []))

/-- Full language score matrix
`torch.matmul(q, s.permute(0, 1, 3, 2)) / np.sqrt(d_k)`
(attentions.py line 309). -/
def languageAttnFull (A : AdaptiveAttentionParams) (queries signals : Mat)
    (hIdx i i2 : ℕ) : ℚ :=
  dotQ (ScaledDotProductAttention.qHead A.toAttentionParams queries hIdx i)
    (sHead A signals hIdx i2) / A.sqrt_dk

/-- Diagonal extraction
`torch.cat([language_attn[:, :, i, i].unsqueeze(-1) for i in range(nq)], -1)`
(attentions.py line 310): one scalar per query position. -/
def language_attn (A : AdaptiveAttentionParams) (queries signals : Mat)
    (nq hIdx : ℕ) : List ℚ :=
  (List.range nq).map (fun i => languageAttnFull A queries signals hIdx i i)

/-- Combined score row of query `i`:
`torch.cat([attn, language_attn.unsqueeze(-1)], dim=-1)`
(attentions.py line 312) — the `nk` masked/weighted key scores followed by
the never-masked language score. -/
def combined_attn_row (A : AdaptiveAttentionParams) (queries keys signals : Mat)
    (mask : Option AttnMask) (wts : Option AttnWeights) (nq hIdx i : ℕ) :
    List (Option ℚ) :=
  ScaledDotProductAttention.attRow A.toAttentionParams queries keys mask wts
      keys.length hIdx i
    ++ [some ((language_attn A queries signals nq hIdx).getD i 0)]

/-- Extended value rows of query `i`:
`torch.cat([v, s[:, :, i, :].unsqueeze(2)], 2)` (attentions.py line 317). -/
def combined_v (A : AdaptiveAttentionParams) (values signals : Mat)
    (hIdx i : ℕ) : List Vec :=
  (List.range values.length).map
      (ScaledDotProductAttention.vHead A.toAttentionParams values hIdx)
    ++ [sHead A signals hIdx i]

/-- Per-head output of query `i` (attentions.py lines 313, 320): the
position-wise softmax of the combined row, then the weighted sum of the
extended value rows. -/
def outHead (A : AdaptiveAttentionParams) (ex : ℚ → ℚ)
    (queries keys values signals : Mat) (mask : Option AttnMask)
    (wts : Option AttnWeights) (nq hIdx i : ℕ) : Vec :=
  weightedSumVecs
    (softmaxRow ex (combined_attn_row A queries keys signals mask wts nq hIdx i))
    (combined_v A values signals hIdx i) A.d_v

/-- The adaptive attention step as the claim words it: for query position
`i`, the softmax runs over `nk + 1` choices — the `nk` masked key scores and,
as the extra choice, the diagonal-only language score relating position `i`
to the language-signal vector at the same position `i` — and the value rows
are extended with the projected language-signal vector of position `i`
before the weighted sum. -/
def claimOutHead (A : AdaptiveAttentionParams) (ex : ℚ → ℚ)
    (queries keys values signals : Mat) (mask : Option AttnMask)
    (wts : Option AttnWeights) (hIdx i : ℕ) : Vec :=
  weightedSumVecs
    (softmaxRow ex
      (ScaledDotProductAttention.attRow A.toAttentionParams queries keys mask
          wts keys.length hIdx i
        ++ [some (dotQ
            (ScaledDotProductAttention.qHead A.toAttentionParams queries hIdx i)
            (sHead A signals hIdx i) / A.sqrt_dk)]))
    ((List.range values.length).map
        (ScaledDotProductAttention.vHead A.toAttentionParams values hIdx)
      ++ [sHead A signals hIdx i]) A.d_v

end AdaptiveScaledDotProductAttention

namespace AugmentedGeometryScaledDotProductAttention

/-- Message of the `assert boxes is None` failure (attentions.py line 135). -/
def gridAssertMsg : String := "there is no boxe when using grid-based extractor"

/-- Message of the `assert boxes is not None` failure
(attentions.py line 139). -/
def regionAssertMsg : String := "coordinates of objects are requiered for region-based extractor"

/-- Precondition prologue of the geometry-augmented forward pass
(attentions.py lines 134-139): when a grid size is given there must be no
boxes (they are synthesized by `get_grids_position`), otherwise boxes are
required. -/
def resolveBoxes {B G : Type} (get_grids_position : ℕ → ℕ → G → B)
    (bs seqLen : ℕ) (boxes : Option B) (grid_size : Option G) :
    Except String B :=
  match grid_size with
  | some gs =>
    match boxes with
    | some _ => Except.error gridAssertMsg
    | none => Except.ok (get_grids_position bs seqLen gs)
  | none =>
    match boxes with
    | some bx => Except.ok bx
    | none => Except.error regionAssertMsg

/-- The geometry-augmented forward pass with its attention computation
abstracted as `rest`: the box/grid precondition runs first, and only a
successfully resolved box tensor reaches the computation
(attentions.py lines 132-166). -/
def forwardResult {B G R : Type} (get_grids_position : ℕ → ℕ → G → B)
    (rest : B → R) (bs seqLen : ℕ) (boxes : Option B) (grid_size : Option G) :
    Except String R :=
  (resolveBoxes get_grids_position bs seqLen boxes grid_size).map rest

end AugmentedGeometryScaledDotProductAttention

namespace MultiHeadAttention

/-- The persistent per-instance cache of a stateful multi-head attention
module: `running_keys` and `running_values`
(attentions.py lines 354-355). -/
structure RunningKV where
  running_keys : Mat
  running_values : Mat
deriving DecidableEq

/-- Reset cache at the start of a generation episode:
`torch.zeros((0, d_model))` — the empty sequence. -/
def resetState : RunningKV := ⟨[], []⟩

/-- One stateful call (attentions.py lines 358-363): the incoming keys and
values are appended to the cache first, and the full accumulated cache is
what the call then uses as K and V.  Returns the new cache and the (K, V)
pair actually used. -/
def statefulStep (st : RunningKV) (keys values : Mat) :
    RunningKV × (Mat × Mat) :=
  let rk := st.running_keys ++ keys
  let rv := st.running_values ++ values
  (⟨rk, rv⟩, (rk, rv))

/-- Iterating stateful calls over a list of (keys, values) increments. -/
def runSteps (st : RunningKV) : List (Mat × Mat) → RunningKV
  | [] => st
  | (k, v) :: rest => runSteps (statefulStep st k v).1 rest

end MultiHeadAttention

namespace Decoder

/-- The running decoding state of `Decoder.forward` when stateful: the
accumulated columns of `running_mask_self_attention` (decoders.py line 143,
grown by concatenation on the last axis at line 154) and the
`running_seq` position counter (line 144, incremented by `add_(1)` at
line 160).  The column type `μ` abstracts one mask column. -/
structure RunningDecState (μ : Type) where
  running_mask_cols : List μ
  running_seq : ℤ

/-- Reset decoding state: empty mask (`torch.zeros((1, 1, 0))`) and counter
zero (`torch.zeros((1,))`). -/
def decResetState {μ : Type} : RunningDecState μ := ⟨[], 0⟩

/-- One stateful decoder call (decoders.py lines 153-161): the fresh mask
columns of this step are appended to the running mask, which then serves as
the self-attention mask, and the position counter is incremented by exactly
one.  Returns the new state together with the mask and position used. -/
def maskSeqStep {μ : Type} (st : RunningDecState μ) (newCols : List μ) :
    RunningDecState μ × (List μ × ℤ) :=
  let m := st.running_mask_cols ++ newCols
  let s := st.running_seq + 1
  (⟨m, s⟩, (m, s))

/-- Iterating stateful decoder calls over a list of per-step mask columns. -/
def runMaskSeqSteps {μ : Type} (st : RunningDecState μ) :
    List (List μ) → RunningDecState μ
  | [] => st
  | cols :: rest => runMaskSeqSteps (maskSeqStep st cols).1 rest

end Decoder

/-! ## Decoder layers (`models/modules/decoders.py`)

The layer forwards are embedded over their sub-modules taken as function
parameters (the sub-modules are independently constructed `MultiHeadAttention`
and `PositionWiseFeedForward` instances with learned weights); the masking
and precondition structure of `DecoderLayer.forward` and
`MeshedDecoderLayer.forward` is transcribed exactly.  `masked_fill` called
with a `None` mask raises a `TypeError` in PyTorch, so the embedding returns
`Except String`. -/

/-- A zero-filled copy of the vector (`value=0` broadcast over the feature
axis). -/
def zeroLike (v : Vec) : Vec := List.replicate v.length 0

/-- The tensor form of `x.masked_fill(mask_pad, value=0)` with
`mask_pad = mask_queries.unsqueeze(-1)`: every position whose padding-mask
entry is `true` becomes the all-zero vector. -/
def maskedFillZero (mp : List Bool) (s : Mat) : Mat :=
  List.zipWith (fun m v => if m then zeroLike v else v) mp s

/-- Error message of `masked_fill` when the mask argument is `None`. -/
def maskedFillNoneMsg : String := "masked_fill: argument mask must be Tensor, not NoneType"

/-- The call `x.masked_fill(mask_pad, value=0)` as the layers perform it:
with `mask_pad = None` (the declared default) PyTorch raises a `TypeError`
before producing a value. -/
def maskedFillPad : Option (List Bool) → Mat → Except String Mat
  | none, _ => Except.error maskedFillNoneMsg
  | some mp, s => Except.ok (maskedFillZero mp s)

/-- Sub-modules of a `DecoderLayer` (decoders.py lines 16-25), abstracted as
the functions they compute: masked self-attention, cross-attention with
optional language signals and mask, and the position-wise feed-forward. -/
structure DecoderLayerModules (σ μ : Type) where
  self_attn : Mat → Option μ → Mat
  enc_attn : Mat → Mat → Option σ → Option μ → Mat
  pwff : Mat → Mat

namespace DecoderLayer

/-- Transcription of `DecoderLayer.forward` (decoders.py lines 27-37):
self-attention, padding fill, cross-attention with a padding fill applied
twice (lines 31-33), then the feed-forward — whose result is returned
without a further padding fill. -/
def forward {σ μ : Type} (M : DecoderLayerModules σ μ) (input enc_output : Mat)
    (language_signals : Option σ) (mask_pad : Option (List Bool))
    (mask_self_att mask_enc_att : Option μ) : Except String Mat := do
  let selfAtt := M.self_attn input mask_self_att
  let selfAtt ← maskedFillPad mask_pad selfAtt
  let encAtt ← maskedFillPad mask_pad
    (M.enc_attn selfAtt enc_output language_signals mask_enc_att)
  let encAtt ← maskedFillPad mask_pad encAtt
  return M.pwff encAtt

end DecoderLayer

/-- Elementwise product of two feature sequences (`enc_att * alpha`). -/
def seqMul (a b : Mat) : Mat :=
  List.zipWith (fun x y => List.zipWith (fun p q => p * q) x y) a b

/-- Elementwise sum of two feature sequences (`attn += ...`). -/
def seqAdd (a b : Mat) : Mat :=
  List.zipWith (fun x y => List.zipWith (fun p q => p + q) x y) a b

/-- Sum of the gated cross-attention results, starting from the Python
scalar `attn = 0` (decoders.py lines 80-82). -/
def seqSum : List Mat → Mat
  | [] => []
  | s :: rest => rest.foldl seqAdd s

/-- Division of a sequence by a scalar (`attn / np.sqrt(N_enc)`). -/
def seqDivScalar (s : Mat) (c : ℚ) : Mat := s.map (fun v => v.map (fun x => x / c))

/-- Feature-axis concatenation `torch.cat([self_att, enc_att], -1)`. -/
def catFeat (a b : Mat) : Mat := List.zipWith (fun x y => x ++ y) a b

/-- Sub-modules and parameters of a `MeshedDecoderLayer`
(decoders.py lines 43-54): attention and feed-forward sub-modules, the `N_enc`
gate layers `fc_alphas`, the numeric value of `torch.sigmoid` and of
`np.sqrt(N_enc)`. -/
structure MeshedDecoderLayerModules (σ μ : Type) where
  self_att : Mat → Option μ → Mat
  enc_att : Mat → Mat → Option σ → Option μ → Mat
  pwff : Mat → Mat
  fc_alphas : List LinearLayer
  sigmoid : ℚ → ℚ
  sqrtN : ℚ

namespace MeshedDecoderLayer

/-- Message of the encoder-layer-count precondition
(decoders.py line 66). -/
def layerCountAssertMsg : String := "total layers of the encoder must equal to total number of the encoder outputs"

/-- Message of the unbound-name failure at decoders.py line 84 when the
cross-attention loop never ran. -/
def encAttUnboundMsg : String := "name enc_att is not defined"

/-- Body of `MeshedDecoderLayer.forward` after the layer-count assert
(decoders.py lines 68-89): masked self-attention; one masked cross-attention
per encoder layer output; sigmoid gates from the concatenated features; the
gated sum divided by `np.sqrt(N_enc)`; the (dead) re-masking of the last
cross-attention result at line 84; and the feed-forward, whose output is
padding-filled before being returned (lines 86-88). -/
def body {σ μ : Type} (M : MeshedDecoderLayerModules σ μ) (input : Mat)
    (enc_output : List Mat) (language_signals : Option σ)
    (mask_pad : Option (List Bool)) (mask_self_att mask_enc_att : Option μ) :
    Except String Mat := do
  let selfAtt ← maskedFillPad mask_pad (M.self_att input mask_self_att)
  let encAtts ← enc_output.mapM (fun eo =>
    maskedFillPad mask_pad (M.enc_att selfAtt eo language_signals mask_enc_att))
  let alphas := List.zipWith
    (fun fc ea => (catFeat selfAtt ea).map (fun v => (fc.apply v).map M.sigmoid))
    M.fc_alphas encAtts
  let attn := seqDivScalar (seqSum (List.zipWith seqMul alphas encAtts)) M.sqrtN
  let _ ← match encAtts.getLast? with
    | none => (Except.error encAttUnboundMsg : Except String Mat)
    | some e => maskedFillPad mask_pad e
  let ff := M.pwff attn
  maskedFillPad mask_pad ff

/-- Transcription of `MeshedDecoderLayer.forward` (decoders.py lines 65-89):
the `assert enc_output.size(1) == self.N_enc` precondition runs before any
tensor computation; only when the encoder output carries exactly `N_enc`
layer outputs does the call proceed to `body`. -/
def forward {σ μ : Type} (N_enc : ℕ) (M : MeshedDecoderLayerModules σ μ)
    (input : Mat) (enc_output : List Mat) (language_signals : Option σ)
    (mask_pad : Option (List Bool)) (mask_self_att mask_enc_att : Option μ) :
    Except String Mat :=
  if enc_output.length = N_enc then
    body M input enc_output language_signals mask_pad mask_self_att mask_enc_att
  else Except.error layerCountAssertMsg

end MeshedDecoderLayer

/-- Rectified linear unit. -/
def reluQ (x : ℚ) : ℚ := max x 0

/-- Modelled from the spec: `PositionWiseFeedForward`
(`models/modules/positionwise_feed_forward.py` is not among the provided
sources); section 4.3 of the spec describes it as "two linear layers with
non-linearity and dropout, residual + norm", applied position-wise.  This is
the instance for feature dimension 1: the inner value is
`x + w2 * relu(w1 * x + b1) + b2` (second linear, residual), and the closing
`LayerNorm` over a single feature centres that value at its own mean —
identically zero — so the layer returns the affine parameter `beta` at every
position (dropout is identity in eval mode). -/
def pwffD1 (w1 b1 w2 b2 gamma beta : ℚ) (s : Mat) : Mat :=
  s.map (fun v => v.map (fun x =>
    let inner := x + (w2 * reluQ (w1 * x + b1) + b2)
    gamma * (inner - inner) + beta))

/-! ## Helper predicates and concrete instances used by the theorems -/

/-- Boolean success test for an embedded fallible call. -/
def isOkB {α : Type} : Except String α → Bool
  | Except.ok _ => true
  | Except.error _ => false

/-- Boolean test that a vector is all zeros. -/
def isZeroVec (v : Vec) : Bool := v.all (fun x => x == 0)

/-- A concrete sub-module instantiation of a simple decoder layer (identity
attentions, identity feed-forward). -/
def idDecoderModules : DecoderLayerModules Unit Unit :=
  ⟨fun s _ => s, fun s _ _ _ => s, fun s => s⟩

/-- A concrete sub-module instantiation of a meshed decoder layer (identity
attentions and feed-forward, no gate layers needed for one encoder layer,
sigmoid and `np.sqrt(1)` taken at simple rational stand-ins). -/
def idMeshedModules : MeshedDecoderLayerModules Unit Unit :=
  ⟨fun s _ => s, fun s _ _ _ => s, fun s => s, [⟨[[0, 0]], [0]⟩], fun x => x, 1⟩

/-- A concrete simple decoder layer whose feed-forward is the spec-modelled
`pwffD1` with all linear weights zero and LayerNorm parameters
`gamma = 1`, `beta = 1`: its position-wise feed-forward maps every value to
`1`. -/
def cexDecoderModules : DecoderLayerModules Unit Unit :=
  ⟨fun s _ => s, fun s _ _ _ => s, pwffD1 0 0 0 0 1 1⟩

/-- One-dimensional identity linear layer. -/
def idLin : LinearLayer := ⟨[[1]], [0]⟩

/-- Concrete memory-attention parameters with one head, one-dimensional
projections, one memory slot and unit square roots. -/
def memTestParams : MemoryAttentionParams :=
  ⟨⟨1, 1, 1, idLin, idLin, idLin, idLin, 1⟩, 1, [[2]], [[3]], 1⟩

/-- Concrete adaptive-attention parameters with one head and one-dimensional
projections. -/
def adaTestParams : AdaptiveAttentionParams :=
  ⟨⟨1, 1, 1, idLin, idLin, idLin, idLin, 1⟩, idLin⟩

/-! ## Helper lemmas -/

/-- Accumulated keys of iterated stateful attention calls. -/
theorem mhaRunSteps_running_keys (incs : List (Mat × Mat))
    (st : MultiHeadAttention.RunningKV) :
    (MultiHeadAttention.runSteps st incs).running_keys
      = st.running_keys ++ (incs.map Prod.fst).flatten := by
  induction incs generalizing st with
  | nil => simp [MultiHeadAttention.runSteps]
  | cons p rest ih =>
    simp [MultiHeadAttention.runSteps, MultiHeadAttention.statefulStep, ih,
      List.append_assoc]

/-- Accumulated values of iterated stateful attention calls. -/
theorem mhaRunSteps_running_values (incs : List (Mat × Mat))
    (st : MultiHeadAttention.RunningKV) :
    (MultiHeadAttention.runSteps st incs).running_values
      = st.running_values ++ (incs.map Prod.snd).flatten := by
  induction incs generalizing st with
  | nil => simp [MultiHeadAttention.runSteps]
  | cons p rest ih =>
    simp [MultiHeadAttention.runSteps, MultiHeadAttention.statefulStep, ih,
      List.append_assoc]

/-- Accumulated mask columns and position counter of iterated stateful
decoder calls. -/
theorem decRunMaskSeqSteps_state {μ : Type} (colsList : List (List μ))
    (st : Decoder.RunningDecState μ) :
    (Decoder.runMaskSeqSteps st colsList).running_mask_cols
        = st.running_mask_cols ++ colsList.flatten
      ∧ (Decoder.runMaskSeqSteps st colsList).running_seq
        = st.running_seq + colsList.length := by
  induction colsList generalizing st with
  | nil => simp [Decoder.runMaskSeqSteps]
  | cons c rest ih =>
    have h := ih (Decoder.maskSeqStep st c).1
    simp only [Decoder.runMaskSeqSteps, Decoder.maskSeqStep] at h ⊢
    refine ⟨h.1.trans (by simp), h.2.trans (by simp; ring)⟩

/-! ## Claims -/

/-- C1: the claim asserts that patience accumulates across epochs and that,
on the CIDEr sequence [0.5, 0.4, 0.3, 0.2, 0.1, 0.05], the XE-to-RL switch
fires after the fifth non-improving epoch with the best checkpoint reloaded.
The code contradicts this: because `Trainer.train` re-initialises `use_rl`,
`best_val_cider` and `patience` inside its `while True:` loop, every epoch of
a no-resume run starts from patience 0 and best 0, so every epoch is marked
best and no switch, reload or exit ever happens (first conjuncts).  The
state machine the spec describes — the same per-epoch body with the state
threaded — does behave exactly as the claim says: five non-improvements, then
one switch with optimizer re-initialisation and a best-checkpoint reload,
and in the RL phase reaching patience 5 exits (last conjuncts). -/
theorem claim_C1_trainer_loop : Trainer.trainLoopNoResume Trainer.ciderSeq
      = List.replicate 6 ⟨true, false, false, false, false, 0, false⟩
    ∧ ((Trainer.trainLoopNoResume Trainer.ciderSeq).map
        Trainer.EpochOutcome.switch_to_rl).count true = 0
    ∧ Trainer.specStateMachineRun Trainer.initLoopState Trainer.ciderSeq
      = [⟨true, false, false, false, false, 0, false⟩,
         ⟨false, false, false, false, false, 1, false⟩,
         ⟨false, false, false, false, false, 2, false⟩,
         ⟨false, false, false, false, false, 3, false⟩,
         ⟨false, false, false, false, false, 4, false⟩,
         ⟨false, true, false, true, true, 0, true⟩]
    ∧ (Trainer.trainEpochStep ⟨true, 1, 0, 4⟩ (mkRat 1 2)).2.exit_train = true := by
  refine ⟨by decide, by decide, by decide, by decide⟩

/-- C2: the claim says the persisted last-checkpoint record contains the
model, optimizer, scheduler and RNG states besides the scalar training
metrics.  The record `Trainer.train` writes with `torch.save` contains none
of those states (first conjuncts), even though what it does write is a
strict subset of the claimed fields; resuming is impossible because
`load_checkpoint` reads keys the persisted record lacks; the full record the
claim describes is exactly what the dead, never-called
`Trainer.save_checkpoint` builds; the copy of the last checkpoint to the
best checkpoint on a best epoch is as claimed. -/
theorem claim_C2_checkpoint_record : ("state_dict" ∉ Trainer.torchSavedKeys
      ∧ "optimizer" ∉ Trainer.torchSavedKeys
      ∧ "scheduler" ∉ Trainer.torchSavedKeys
      ∧ "torch_rng_state" ∉ Trainer.torchSavedKeys
      ∧ "cuda_rng_state" ∉ Trainer.torchSavedKeys
      ∧ "numpy_rng_state" ∉ Trainer.torchSavedKeys
      ∧ "random_rng_state" ∉ Trainer.torchSavedKeys)
    ∧ ¬ Trainer.claimedLastCheckpointKeys ⊆ Trainer.torchSavedKeys
    ∧ Trainer.torchSavedKeys ⊆ Trainer.claimedLastCheckpointKeys
    ∧ ¬ Trainer.loadCheckpointAccessedKeys ⊆ Trainer.torchSavedKeys
    ∧ Trainer.claimedLastCheckpointKeys
        ⊆ Trainer.saveCheckpointBuiltKeys Trainer.torchSavedKeys
    ∧ Trainer.epochFilesWritten true = ["last_model.pth", "best_val_model.pth"]
    ∧ Trainer.epochFilesWritten false = ["last_model.pth"] := by
  refine ⟨by decide, by decide, by decide, by decide, by decide, rfl, rfl⟩

/-- C3: the claim describes the self-critical batch: beam search with
`beam_size` samples per image, CIDEr rewards against the references, the
beam-mean baseline and the policy-gradient loss.  The loss and baseline the
code writes down do have that shape (last conjuncts, on concrete values:
the baseline of rewards [1, 2, 3, 0] is their mean 3/2, and the loss terms
are minus the mean log-probability times reward minus baseline), but no
batch is ever processed: line 186 of `train_scst` reads `caps_gt`, which is
bound nowhere before it (first conjunct), raising an `UnboundLocalError`;
line 188 reads `self.train_cider`, an attribute that does not exist (the
constructor stores the scorer as `cider_train`); and the beam-search call
passes `beam_size=config.batch_size` (16), not the configured `beam_size`
(5), which it passes as `out_size`. -/
theorem claim_C3_scst_batch : "caps_gt" ∉ Trainer.scstLocalsBeforeLine186
    ∧ Trainer.scstScorerAttribute ∉ Trainer.initAttributes
    ∧ "cider_train" ∈ Trainer.initAttributes
    ∧ Trainer.scstBeamSearchCall.beam_size = Config.batch_size
    ∧ Trainer.scstBeamSearchCall.out_size = Config.beam_size
    ∧ Trainer.scstBeamSearchCall.beam_size ≠ Config.beam_size
    ∧ Trainer.rewardBaseline [1, 2, 3, 0] = 3/2
    ∧ Trainer.scstImageLoss [2, 0] [[1, 3], [5, 1]] = [-2, 3] := by
  refine ⟨by decide, by decide, by decide, rfl, rfl, by decide, ?_, ?_⟩
  · norm_num [Trainer.rewardBaseline, Trainer.listMean]
  · norm_num [Trainer.scstImageLoss, Trainer.rewardBaseline, Trainer.listMean]

/-- C5: in a stateful decoding episode, every stateful multi-head attention
call first appends the incoming keys and values to its persistent cache and
then uses the full accumulated cache as K and V (so after any number of
steps from a reset the cache is the concatenation of every increment — the
complete generated prefix), and every stateful decoder call appends this
step's mask columns to the running causal mask (one new column for a
one-token step) and increments the running position counter by exactly
one. -/
theorem claim_C5_stateful_decoding (μ : Type) :
    (∀ (st : MultiHeadAttention.RunningKV) (ks vs : Mat),
        (MultiHeadAttention.statefulStep st ks vs).2.1 = st.running_keys ++ ks
      ∧ (MultiHeadAttention.statefulStep st ks vs).2.2 = st.running_values ++ vs
      ∧ (MultiHeadAttention.statefulStep st ks vs).1
          = ⟨st.running_keys ++ ks, st.running_values ++ vs⟩)
    ∧ (∀ incs : List (Mat × Mat),
        (MultiHeadAttention.runSteps MultiHeadAttention.resetState incs).running_keys
          = (incs.map Prod.fst).flatten
      ∧ (MultiHeadAttention.runSteps MultiHeadAttention.resetState incs).running_values
          = (incs.map Prod.snd).flatten)
    ∧ (∀ (st : Decoder.RunningDecState μ) (c : μ),
        (Decoder.maskSeqStep st [c]).2.1 = st.running_mask_cols ++ [c]
      ∧ (Decoder.maskSeqStep st [c]).2.1.length = st.running_mask_cols.length + 1
      ∧ (Decoder.maskSeqStep st [c]).2.2 = st.running_seq + 1)
    ∧ (∀ colsList : List (List μ),
        (Decoder.runMaskSeqSteps Decoder.decResetState colsList).running_mask_cols
          = colsList.flatten
      ∧ (Decoder.runMaskSeqSteps Decoder.decResetState colsList).running_seq
          = colsList.length) := by
  refine ⟨fun st ks vs => ⟨rfl, rfl, rfl⟩, fun incs => ?_, fun st c => ?_,
    fun colsList => ?_⟩
  · exact ⟨by simpa [MultiHeadAttention.resetState] using
        mhaRunSteps_running_keys incs MultiHeadAttention.resetState,
      by simpa [MultiHeadAttention.resetState] using
        mhaRunSteps_running_values incs MultiHeadAttention.resetState⟩
  · exact ⟨rfl, by simp [Decoder.maskSeqStep], rfl⟩
  · have h := decRunMaskSeqSteps_state colsList (Decoder.decResetState (μ := μ))
    exact ⟨by simpa [Decoder.decResetState] using h.1,
      by simpa [Decoder.decResetState] using h.2⟩

/-- C8: in the geometry-augmented forward pass, supplying both boxes and a
grid size fails on the `assert boxes is None` of the grid branch, and
supplying neither fails on the `assert boxes is not None` of the region
branch; both failures happen in the box-resolution prologue, before the
attention computation `rest` runs.  Supplying exactly one of the two
proceeds: given boxes are used directly, a given grid size synthesizes the
coordinates through `get_grids_position`. -/
theorem claim_C8_geometry_precondition (B G R : Type)
    (get_grids_position : ℕ → ℕ → G → B) (rest : B → R) (bs seqLen : ℕ)
    (b : B) (g : G) :
    AugmentedGeometryScaledDotProductAttention.forwardResult
        get_grids_position rest bs seqLen (some b) (some g)
      = Except.error AugmentedGeometryScaledDotProductAttention.gridAssertMsg
    ∧ AugmentedGeometryScaledDotProductAttention.forwardResult
        get_grids_position rest bs seqLen none none
      = Except.error AugmentedGeometryScaledDotProductAttention.regionAssertMsg
    ∧ AugmentedGeometryScaledDotProductAttention.forwardResult
        get_grids_position rest bs seqLen (some b) none
      = Except.ok (rest b)
    ∧ AugmentedGeometryScaledDotProductAttention.forwardResult
        get_grids_position rest bs seqLen none (some g)
      = Except.ok (rest (get_grids_position bs seqLen g)) :=
  ⟨rfl, rfl, rfl, rfl⟩

/-- Getting entry `i` of the diagonal language-score list extracts the
`(i, i)` entry of the full language score matrix. -/
theorem language_attn_getD (P : AdaptiveAttentionParams) (queries signals : Mat)
    (nq hIdx i : ℕ) (hi : i < nq) :
    (AdaptiveScaledDotProductAttention.language_attn P queries signals nq hIdx).getD i 0
      = AdaptiveScaledDotProductAttention.languageAttnFull P queries signals hIdx i i := by
  have hlen :
      (AdaptiveScaledDotProductAttention.language_attn P queries signals nq
        hIdx).length = nq := by
    simp [AdaptiveScaledDotProductAttention.language_attn]
  rw [List.getD_eq_getElem _ _ (by rw [hlen]; exact hi)]
  simp [AdaptiveScaledDotProductAttention.language_attn]

/-- C6: given the same projection weights, the memory-augmented raw score on
a non-memory column equals the plain scaled-dot-product score (first
conjunct); the multiplicative weights and the mask apply only to the first
`nk` columns (second conjunct: a non-memory column is weight-scaled and
filled with `-inf` exactly when the mask says so); and the memory columns
are never masked or weight-scaled — their final score is the raw score even
when both a mask and weights are supplied (third conjunct). -/
theorem claim_C6_memory_attention (P : MemoryAttentionParams)
    (queries keys : Mat) (mask : AttnMask) (wts : AttnWeights) (hIdx i j : ℕ) :
    (j < keys.length →
      AugmentedMemoryScaledDotProductAttention.score P queries keys hIdx i j
        = ScaledDotProductAttention.score P.toAttentionParams queries keys hIdx i j)
    ∧ (j < keys.length →
      AugmentedMemoryScaledDotProductAttention.maskedScore P queries keys
          (some mask) (some wts) hIdx i j
        = if mask hIdx i j then none
          else some (AugmentedMemoryScaledDotProductAttention.score P queries
              keys hIdx i j * wts hIdx i j))
    ∧ (keys.length ≤ j →
      AugmentedMemoryScaledDotProductAttention.maskedScore P queries keys
          (some mask) (some wts) hIdx i j
        = some (AugmentedMemoryScaledDotProductAttention.score P queries keys
            hIdx i j)) := by
  refine ⟨fun h => ?_, fun h => ?_, fun h => ?_⟩
  · simp [AugmentedMemoryScaledDotProductAttention.score,
      AugmentedMemoryScaledDotProductAttention.keyRow,
      ScaledDotProductAttention.score, ScaledDotProductAttention.qHead,
      ScaledDotProductAttention.kHead, if_pos h]
  · by_cases hm : mask hIdx i j <;>
      simp [AugmentedMemoryScaledDotProductAttention.maskedScore,
        AugmentedMemoryScaledDotProductAttention.weightedScore, h, hm]
  · simp [AugmentedMemoryScaledDotProductAttention.maskedScore,
      AugmentedMemoryScaledDotProductAttention.weightedScore,
      Nat.not_lt.mpr h]

/-- C6 witness: the comparison instantiated at one-dimensional parameters
with one key and one memory slot, on the key column `j = 0` and the memory
column `j = 1`. -/
theorem claim_C6_memory_attention_witness :
    (AugmentedMemoryScaledDotProductAttention.score memTestParams [[1]] [[1]] 0 0 0
      = ScaledDotProductAttention.score memTestParams.toAttentionParams [[1]] [[1]] 0 0 0)
    ∧ (AugmentedMemoryScaledDotProductAttention.maskedScore memTestParams [[1]] [[1]]
          (some (fun _ _ _ => false)) (some (fun _ _ _ => 2)) 0 0 0
        = if (fun (_ _ _ : ℕ) => false) 0 0 0 then none
          else some (AugmentedMemoryScaledDotProductAttention.score memTestParams
              [[1]] [[1]] 0 0 0 * (fun (_ _ _ : ℕ) => (2 : ℚ)) 0 0 0))
    ∧ (AugmentedMemoryScaledDotProductAttention.maskedScore memTestParams [[1]] [[1]]
          (some (fun _ _ _ => false)) (some (fun _ _ _ => 2)) 0 0 1
        = some (AugmentedMemoryScaledDotProductAttention.score memTestParams
            [[1]] [[1]] 0 0 1)) :=
  ⟨(claim_C6_memory_attention memTestParams [[1]] [[1]] (fun _ _ _ => false)
      (fun _ _ _ => 2) 0 0 0).1 (by decide),
   (claim_C6_memory_attention memTestParams [[1]] [[1]] (fun _ _ _ => false)
      (fun _ _ _ => 2) 0 0 0).2.1 (by decide),
   (claim_C6_memory_attention memTestParams [[1]] [[1]] (fun _ _ _ => false)
      (fun _ _ _ => 2) 0 0 1).2.2 (by decide)⟩

/-- C7: the adaptive attention output of query position `i` (computed as the
code computes it: full language matrix, diagonal extraction, per-position
concatenation, per-position softmax, extended values) equals the claim's
description `claimOutHead` — a softmax over `nk + 1` choices whose extra
choice is the diagonal language score of position `i` against the
language-signal vector at the same position `i`, with the value rows
extended by that position's projected signal (first conjunct); the combined
score row indeed has `nk + 1` entries (second conjunct); and the output at
position `i` depends on the language signals only through the signal vector
at position `i` (third conjunct — the diagonal-only property). -/
theorem claim_C7_adaptive_attention (P : AdaptiveAttentionParams) (ex : ℚ → ℚ)
    (queries keys values signals signals2 : Mat) (mask : Option AttnMask)
    (wts : Option AttnWeights) (hIdx i : ℕ) (hi : i < queries.length) :
    AdaptiveScaledDotProductAttention.outHead P ex queries keys values signals
        mask wts queries.length hIdx i
      = AdaptiveScaledDotProductAttention.claimOutHead P ex queries keys values
          signals mask wts hIdx i
    ∧ (AdaptiveScaledDotProductAttention.combined_attn_row P queries keys
        signals mask wts queries.length hIdx i).length = keys.length + 1
    ∧ (signals.getD i [] = signals2.getD i [] →
        AdaptiveScaledDotProductAttention.outHead P ex queries keys values
            signals mask wts queries.length hIdx i
          = AdaptiveScaledDotProductAttention.outHead P ex queries keys values
              signals2 mask wts queries.length hIdx i) := by
  have hmain : ∀ sig : Mat,
      AdaptiveScaledDotProductAttention.outHead P ex queries keys values sig
          mask wts queries.length hIdx i
        = AdaptiveScaledDotProductAttention.claimOutHead P ex queries keys
            values sig mask wts hIdx i := by
    intro sig
    have hd : (AdaptiveScaledDotProductAttention.language_attn P queries sig
          queries.length hIdx).getD i 0
        = dotQ (ScaledDotProductAttention.qHead P.toAttentionParams queries hIdx i)
            (AdaptiveScaledDotProductAttention.sHead P sig hIdx i) / P.sqrt_dk :=
      language_attn_getD P queries sig queries.length hIdx i hi
    simp only [AdaptiveScaledDotProductAttention.outHead,
      AdaptiveScaledDotProductAttention.claimOutHead,
      AdaptiveScaledDotProductAttention.combined_attn_row,
      AdaptiveScaledDotProductAttention.combined_v, hd]
  refine ⟨hmain signals, ?_, fun hs => ?_⟩
  · simp [AdaptiveScaledDotProductAttention.combined_attn_row,
      ScaledDotProductAttention.attRow]
  · rw [hmain signals, hmain signals2]
    simp only [AdaptiveScaledDotProductAttention.claimOutHead,
      AdaptiveScaledDotProductAttention.sHead]
    rw [hs]

/-- C7 witness: the adaptive attention properties instantiated at
one-dimensional parameters, one query, one key and the constant exponential,
with a second signal tensor that agrees at position 0. -/
theorem claim_C7_adaptive_attention_witness :
    AdaptiveScaledDotProductAttention.outHead adaTestParams (fun _ => 1)
        [[1]] [[1]] [[2]] [[3]] none none 1 0 0
      = AdaptiveScaledDotProductAttention.claimOutHead adaTestParams
          (fun _ => 1) [[1]] [[1]] [[2]] [[3]] none none 0 0
    ∧ (AdaptiveScaledDotProductAttention.combined_attn_row adaTestParams
        [[1]] [[1]] [[3]] none none 1 0 0).length = 2
    ∧ AdaptiveScaledDotProductAttention.outHead adaTestParams (fun _ => 1)
        [[1]] [[1]] [[2]] [[3]] none none 1 0 0
      = AdaptiveScaledDotProductAttention.outHead adaTestParams (fun _ => 1)
          [[1]] [[1]] [[2]] [[3], [7]] none none 1 0 0 :=
  ⟨(claim_C7_adaptive_attention adaTestParams (fun _ => 1) [[1]] [[1]] [[2]]
      [[3]] [[3], [7]] none none 0 0 (by decide)).1,
   (claim_C7_adaptive_attention adaTestParams (fun _ => 1) [[1]] [[1]] [[2]]
      [[3]] [[3], [7]] none none 0 0 (by decide)).2.1,
   (claim_C7_adaptive_attention adaTestParams (fun _ => 1) [[1]] [[1]] [[2]]
      [[3]] [[3], [7]] none none 0 0 (by decide)).2.2 (by decide)⟩

/-- Reduction of bind on a successful embedded call. -/
theorem exceptBind_ok {α β : Type} (a : α) (f : α → Except String β) :
    (Except.ok a >>= f) = f a := rfl

/-- Reduction of bind on a failed embedded call. -/
theorem exceptBind_err {α β : Type} (m : String) (f : α → Except String β) :
    ((Except.error m : Except String α) >>= f) = Except.error m := rfl

/-- Auxiliary form of `mapM_ok` for the accumulator loop of `List.mapM`. -/
theorem mapM_loop_ok {α β : Type} (f : α → β) (l : List α) (acc : List β) :
    List.mapM.loop (fun a => (Except.ok (f a) : Except String β)) l acc
      = Except.ok (acc.reverse ++ l.map f) := by
  induction l generalizing acc with
  | nil => simp [List.mapM.loop]; rfl
  | cons a rest ih => simp [List.mapM.loop, exceptBind_ok, ih]

/-- Mapping an always-successful call over a list succeeds with the mapped
list. -/
theorem mapM_ok {α β : Type} (f : α → β) (l : List α) :
    (l.mapM (fun a => (Except.ok (f a) : Except String β)))
      = Except.ok (l.map f) := by
  simpa using mapM_loop_ok f l []

/-- A position marked by the padding mask is an all-zero vector after
`masked_fill(mask_pad, value=0)`. -/
theorem maskedFillZero_padded (mp : List Bool) (s : Mat) (i : ℕ)
    (h : mp.getD i false = true) :
    isZeroVec ((maskedFillZero mp s).getD i []) = true := by
  by_cases hi : i < (maskedFillZero mp s).length
  · have hmp : i < mp.length := by
      have h2 := hi
      simp only [maskedFillZero, List.length_zipWith, lt_min_iff] at h2
      exact h2.1
    have hmpi : mp[i] = true := by rwa [← List.getD_eq_getElem mp false hmp]
    rw [List.getD_eq_getElem _ _ hi]
    simp only [maskedFillZero, List.getElem_zipWith, hmpi, if_pos]
    simp [zeroLike, isZeroVec, List.all_eq_true, List.mem_replicate]
  · rw [List.getD_eq_default _ _ (Nat.le_of_not_lt hi)]
    rfl

/-- C9: corresponds to the meshed-decoder-layer precondition.  When the
encoder output does not carry exactly `N_enc` per-layer outputs, the forward
call fails with the layer-count assertion message, before any tensor
computation (first conjunct); when the counts match, the call proceeds into
the tensor computation `body` (second conjunct). -/
theorem claim_C9_meshed_layer_precondition (σ μ : Type) (N_enc : ℕ)
    (M : MeshedDecoderLayerModules σ μ) (input : Mat) (enc_output : List Mat)
    (ls : Option σ) (mp : Option (List Bool)) (msa mea : Option μ) :
    (enc_output.length ≠ N_enc →
      MeshedDecoderLayer.forward N_enc M input enc_output ls mp msa mea
        = Except.error MeshedDecoderLayer.layerCountAssertMsg)
    ∧ (enc_output.length = N_enc →
      MeshedDecoderLayer.forward N_enc M input enc_output ls mp msa mea
        = MeshedDecoderLayer.body M input enc_output ls mp msa mea) := by
  constructor <;> intro h <;> simp [MeshedDecoderLayer.forward, h]

/-- C9 witness: with one encoder-layer output, a meshed layer configured for
`N_enc = 2` fails on the layer-count assertion, while one configured for
`N_enc = 1` proceeds into the tensor computation. -/
theorem claim_C9_meshed_layer_precondition_witness :
    MeshedDecoderLayer.forward 2 idMeshedModules [[1]] [[[1]]] none
        (some [false]) none none
      = Except.error MeshedDecoderLayer.layerCountAssertMsg
    ∧ MeshedDecoderLayer.forward 1 idMeshedModules [[1]] [[[1]]] none
        (some [false]) none none
      = MeshedDecoderLayer.body idMeshedModules [[1]] [[[1]]] none
          (some [false]) none none :=
  ⟨(claim_C9_meshed_layer_precondition Unit Unit 2 idMeshedModules [[1]]
      [[[1]]] none (some [false]) none none).1 (by decide),
   (claim_C9_meshed_layer_precondition Unit Unit 1 idMeshedModules [[1]]
      [[[1]]] none (some [false]) none none).2 (by decide)⟩

/-- C10: because both decoder-layer forwards apply
`masked_fill(mask_pad, value=0)` unconditionally to the self-attention
output, calling either with the declared default `mask_pad = None` always
raises (in the meshed case, either the layer-count assertion or the
`masked_fill` type error fires — never a success), whereas the simple layer
called with an actual padding mask always succeeds: `mask_pad` is
effectively a required argument. -/
theorem claim_C10_mask_pad_required (σ μ : Type) (M : DecoderLayerModules σ μ)
    (M2 : MeshedDecoderLayerModules σ μ) (N_enc : ℕ) (input enc_output : Mat)
    (encL : List Mat) (ls : Option σ) (msa mea : Option μ) (mp : List Bool) :
    isOkB (DecoderLayer.forward M input enc_output ls none msa mea) = false
    ∧ isOkB (MeshedDecoderLayer.forward N_enc M2 input encL ls none msa mea)
        = false
    ∧ isOkB (DecoderLayer.forward M input enc_output ls (some mp) msa mea)
        = true := by
  refine ⟨rfl, ?_, rfl⟩
  by_cases h : encL.length = N_enc <;> simp [MeshedDecoderLayer.forward, h] <;> rfl

/-- C4 (amended): both decoder-layer variants zero the positions marked by
the padding mask after each attention stage, and the meshed variant also
after the feed-forward stage — any successful meshed forward output is
all-zero at every padded position (first conjunct).  The simple variant,
however, returns the feed-forward applied to the (padded-position-zeroed)
cross-attention output without re-applying the padding fill: its result is
exactly `pwff z` for a tensor `z` that is zero at the padded positions, and
nothing zeroes the padded positions of `pwff z` itself (second conjunct). -/
theorem claim_C4_padding_zeroing (σ μ : Type) (M : DecoderLayerModules σ μ)
    (M2 : MeshedDecoderLayerModules σ μ) (N_enc : ℕ) (input enc_output : Mat)
    (encL : List Mat) (ls : Option σ) (msa mea : Option μ) (mp : List Bool)
    (i : ℕ) (h : mp.getD i false = true) :
    (∀ out, MeshedDecoderLayer.forward N_enc M2 input encL ls (some mp) msa mea
        = Except.ok out → isZeroVec (out.getD i []) = true)
    ∧ ∃ z, DecoderLayer.forward M input enc_output ls (some mp) msa mea
        = Except.ok (M.pwff z) ∧ isZeroVec (z.getD i []) = true := by
  constructor
  · intro out hout
    by_cases hN : encL.length = N_enc
    · simp only [MeshedDecoderLayer.forward, if_pos hN] at hout
      simp only [MeshedDecoderLayer.body, maskedFillPad, exceptBind_ok,
        mapM_ok] at hout
      rcases hL : (encL.map (fun eo => maskedFillZero mp
          (M2.enc_att (maskedFillZero mp (M2.self_att input msa)) eo ls
            mea))).getLast? with _ | e
      · rw [hL] at hout
        simp [exceptBind_err] at hout
      · rw [hL] at hout
        simp only [exceptBind_ok] at hout
        cases hout
        exact maskedFillZero_padded mp _ i h
    · simp [MeshedDecoderLayer.forward, hN] at hout
  · exact ⟨maskedFillZero mp (maskedFillZero mp
        (M.enc_attn (maskedFillZero mp (M.self_attn input msa)) enc_output ls
          mea)),
      rfl, maskedFillZero_padded mp _ i h⟩

/-- C4 witness: the amended zeroing facts instantiated at identity
sub-modules, a two-position input whose second position is padded, and one
encoder layer. -/
theorem claim_C4_padding_zeroing_witness :
    (∀ out, MeshedDecoderLayer.forward 1 idMeshedModules [[2], [3]]
        [[[1], [1]]] none (some [false, true]) none none = Except.ok out →
        isZeroVec (out.getD 1 []) = true)
    ∧ ∃ z, DecoderLayer.forward idDecoderModules [[2], [3]] [[1]] none
        (some [false, true]) none none
        = Except.ok (idDecoderModules.pwff z) ∧ isZeroVec (z.getD 1 []) = true :=
  claim_C4_padding_zeroing Unit Unit idDecoderModules idMeshedModules 1
    [[2], [3]] [[1]] [[[1], [1]]] none none none [false, true] 1 (by decide)

/-- C4 counterexample: the claim as stated — padded positions are zero in the
layer output after the feed-forward stage in both variants — is false for the
simple variant.  With identity attention sub-modules and the spec-modelled
position-wise feed-forward `pwffD1 0 0 0 0 1 1` (all linear weights zero,
LayerNorm affine parameters gamma 1, beta 1), the layer output on input
[[2], [3]] with padding mask [false, true] is [[1], [1]]: position 1 is
marked padded, yet the output there is [1], not the zero vector.  The
non-zero value is the feed-forward of the zeroed row, so no choice of
attention sub-modules can restore the claimed zeroing. -/
theorem claim_C4_padding_zeroing_counterexample :
    DecoderLayer.forward cexDecoderModules [[2], [3]] [[1]] none
        (some [false, true]) none none = Except.ok [[1], [1]]
    ∧ isZeroVec (([[1], [1]] : Mat).getD 1 []) = false := by
  constructor
  · show Except.ok (cexDecoderModules.pwff (maskedFillZero [false, true]
      (maskedFillZero [false, true] (maskedFillZero [false, true] [[2], [3]]))))
      = Except.ok [[1], [1]]
    norm_num [cexDecoderModules, pwffD1, reluQ, maskedFillZero, zeroLike]
  · decide
